import Mathlib

/-!
Shallow embedding of the QuantumX repository's two scripts.

`server.py` is a Flask application serving a built front-end from the
`dist` directory: a catch-all route `serve(path)` returns the requested
file when `path` is non-empty and `os.path.join(app.static_folder, path)`
exists on disk (via Flask's `send_from_directory`), and otherwise falls
back to `dist/index.html` (via `send_file`); an `after_request` hook
`add_header` stamps four fixed cache/security headers on every response,
and `CORS(app)` (flask-cors, default configuration) adds cross-origin
headers.  The `__main__` block runs `os.system('npm run build')` and then
`app.run(...)`.

`Testing.py` prints instructions, runs `subprocess.run(['npm','run','dev'])`,
and treats `KeyboardInterrupt` as a clean `sys.exit(0)` with a shutdown
message.

The filesystem is modelled as a finite map from normalized, working-
directory-relative paths (lists of segments, possibly with a leading run
of ".." segments for locations above the working directory) to entries.
Path-touching primitives (`os.path.exists`, `os.path.isfile`) are
modelled by a POSIX-style component walk that requires every intermediate
component to be an existing directory, so that e.g. `dist/ghost/../a` does
not exist when `dist/ghost` is missing, and `dist/file.css/` does not
exist even when `dist/file.css` does.
-/

namespace QuantumX

/-! ### String helpers (structural-recursion replacements for the string
primitives the Python code uses, so that concrete instances evaluate) -/

/-- Splitting a character list at a separator, keeping empty segments,
as Python's `str.split(sep)` does. -/
def splitChar (sep : Char) (cur : List Char) : List Char → List (List Char)
  | [] => [cur.reverse]
  | c :: rest =>
    if c = sep then cur.reverse :: splitChar sep [] rest
    else splitChar sep (c :: cur) rest

/-- Raw segments of a slash-separated path string (empty segments from
duplicate or trailing slashes are kept; the path walk interprets them). -/
def rawSegs (p : String) : List String :=
  (splitChar '/' [] p.data).map String.mk

/-- Does `s` start with the string `pre`?  (Python `str.startswith`,
`posixpath.isabs` when `pre` is `"/"`.) -/
def strStartsWith (s pre : String) : Bool :=
  pre.data.isPrefixOf s.data

/-- Does `s` contain `pat` as a contiguous substring?  (Python's
`pat in s`.) -/
def strContains (s pat : String) : Bool :=
  (List.range (s.data.length + 1)).any (fun i => pat.data.isPrefixOf (s.data.drop i))

/-! ### Filesystem model -/

/-- A filesystem entry: a regular file with its bytes, or a directory. -/
inductive Entry where
  | file (bytes : List Nat)
  | dir
deriving DecidableEq

/-- A filesystem: a finite association list from normalized,
cwd-relative segment paths to entries. -/
structure FS where
  entries : List (List String × Entry)
deriving DecidableEq

/-- Lookup of a normalized path in the filesystem (first match). -/
def lookupEntry (p : List String) : List (List String × Entry) → Option Entry
  | [] => none
  | (k, e) :: rest => if k = p then some e else lookupEntry p rest

/-- `stat` on an already-normalized path. -/
def FS.stat (fs : FS) (p : List String) : Option Entry :=
  lookupEntry p fs.entries

/-- Is the normalized path an existing directory? -/
def FS.isDir (fs : FS) (p : List String) : Bool :=
  decide (fs.stat p = some Entry.dir)

/-- One ".." step on a normalized cwd-relative path: pop the last segment,
or extend the leading run of ".." segments when already at or above the
working directory. -/
def parentOf (acc : List String) : List String :=
  match acc.getLast? with
  | none => [".."]
  | some s => if s = ".." then acc ++ [".."] else acc.dropLast

/-- Pure lexical normalization of relative-path segments, as
`posixpath.normpath` does on a relative path: drop `""` and `"."`,
resolve `".."` against the previous segment, keep a leading run of
`".."`. -/
def normSegs (l : List String) : List String :=
  l.foldl (fun acc s =>
    if s = "" ∨ s = "." then acc
    else if s = ".." then parentOf acc
    else acc ++ [s]) []

/-- POSIX-style component walk modelling the kernel's path resolution
(used by `os.path.exists` / `os.path.isfile`): every component that is
descended from, stepped out of with `".."`, or skipped (`""` / `"."`)
must be an existing directory.  Returns the resolved normalized path, or
`none` when resolution fails partway. -/
def walkFrom (fs : FS) (acc : List String) : List String → Option (List String)
  | [] => some acc
  | s :: rest =>
    if fs.isDir acc then
      if s = "" ∨ s = "." then walkFrom fs acc rest
      else if s = ".." then walkFrom fs (parentOf acc) rest
      else walkFrom fs (acc ++ [s]) rest
    else none

/-- `os.stat` on a cwd-relative raw segment list: walk, then look up. -/
def osStat (fs : FS) (segs : List String) : Option Entry :=
  match walkFrom fs [] segs with
  | some acc => fs.stat acc
  | none => none

/-- `os.path.exists` on a cwd-relative raw segment list. -/
def osExists (fs : FS) (segs : List String) : Bool :=
  (osStat fs segs).isSome

/-- Raw segments of `os.path.join('dist', p)` for a request path `p`.
Faithful for the paths Flask's `path` converter can capture, which never
begin with a slash (`os.path.join` would discard `'dist'` for an
absolute right operand). -/
def joinSegs (p : String) : List String :=
  "dist" :: rawSegs p

/-! ### HTTP responses -/

/-- A response body: the bytes of a served file, or a framework-generated
error page (werkzeug's HTML page for 404/500, whose exact bytes the
scripts do not determine). -/
inductive Body where
  | bytes (b : List Nat)
  | errorPage
deriving DecidableEq

/-- An HTTP response: status code, body, and headers. -/
structure Response where
  status : Nat
  body : Body
  headers : List (String × String)
deriving DecidableEq

/-- Header lookup (first match), `None` when absent. -/
def hFind (k : String) : List (String × String) → Option String
  | [] => none
  | (k', v) :: rest => if k' = k then some v else hFind k rest

/-- Header lookup on a response. -/
def hGet (r : Response) (k : String) : Option String :=
  hFind k r.headers

/-- `headers.get(k, d)`: lookup with a default, as the Python code reads
the content type. -/
def hGetD (r : Response) (k d : String) : String :=
  (hGet r k).getD d

/-- `headers[k] = v`: replace any previous value of `k` (werkzeug's
`Headers.__setitem__` semantics for these simple string keys). -/
def setHeader (hs : List (String × String)) (k v : String) : List (String × String) :=
  (k, v) :: hs.filter (fun kv => !decide (kv.1 = k))

/-! ### Content-type inference (`mimetypes.guess_type` as used by Flask's
`send_file`, with Flask's `; charset=utf-8` suffix on text types and its
`application/octet-stream` fallback for unguessable extensions) -/

/-- The extension of a file name: the part after the last dot, empty when
there is no dot or the only dot is the leading one of a dotfile. -/
def extOf (name : String) : String :=
  match (splitChar '.' [] name.data).reverse with
  | [] => ""
  | [_] => ""
  | e :: rest =>
    if rest.all (fun l => decide (l = [])) then "" else String.mk e

/-- Content type inferred from a file name's extension. -/
def guessMime (name : String) : String :=
  match extOf name with
  | "html" => "text/html; charset=utf-8"
  | "css" => "text/css; charset=utf-8"
  | "js" => "text/javascript; charset=utf-8"
  | "json" => "application/json"
  | "png" => "image/png"
  | "svg" => "image/svg+xml; charset=utf-8"
  | "ico" => "image/vnd.microsoft.icon"
  | "txt" => "text/plain; charset=utf-8"
  | _ => "application/octet-stream"

/-! ### The request handler `serve` (server.py lines 13-18) -/

/-- A 404 Not Found response as werkzeug raises it for `NotFound`
(an HTML error page). -/
def notFound : Response :=
  ⟨404, Body.errorPage, [("Content-Type", "text/html; charset=utf-8")]⟩

/-- A 500 Internal Server Error response, produced when an unhandled
exception (e.g. `send_file` on a missing entry document) escapes the
handler. -/
def serverError : Response :=
  ⟨500, Body.errorPage, [("Content-Type", "text/html; charset=utf-8")]⟩

/-- Does the lexical normalization of the request path begin with a
parent-directory segment (i.e. escape the directory it is joined to)? -/
def escapes (p : String) : Bool :=
  decide ((normSegs (rawSegs p)).head? = some "..")

/-- werkzeug's `safe_join(directory, p)` acceptance test: normalize `p`
lexically, then reject absolute paths and any result that is `".."` or
begins with `"../"`. -/
def safeJoinOk (p : String) : Bool :=
  !strStartsWith p "/" && !escapes p

/-- The normalized on-disk target `safe_join('dist', p)` resolves to when
it accepts. -/
def sfdTarget (p : String) : List String :=
  "dist" :: normSegs (rawSegs p)

/-- Last segment of a path (the file name content types are guessed
from). -/
def lastSeg (p : List String) : String :=
  (p.getLast?).getD ""

/-- Flask's `send_from_directory(directory, p)`: `safe_join`, then serve
the target when it is a regular file (content type from its extension),
and raise `NotFound` (404) otherwise. -/
def sendFromDirectory (fs : FS) (p : String) : Response :=
  if safeJoinOk p then
    match osStat fs (sfdTarget p) with
    | some (Entry.file b) =>
      ⟨200, Body.bytes b, [("Content-Type", guessMime (lastSeg (sfdTarget p)))]⟩
    | _ => notFound
  else notFound

/-- `send_file(os.path.join(app.static_folder, 'index.html'))`: the
entry document's bytes as `text/html` when it is a regular file;
otherwise the read raises and Flask answers 500. -/
def sendIndex (fs : FS) : Response :=
  match osStat fs ["dist", "index.html"] with
  | some (Entry.file b) =>
    ⟨200, Body.bytes b, [("Content-Type", "text/html; charset=utf-8")]⟩
  | _ => serverError

/-- The route handler `serve(path)`: `if path and
os.path.exists(os.path.join(app.static_folder, path)): return
send_from_directory(...)`, else `return send_file(... 'index.html')`. -/
def serve (fs : FS) (p : String) : Response :=
  if p ≠ "" ∧ osExists fs (joinSegs p) = true then sendFromDirectory fs p
  else sendIndex fs

/-! ### The `after_request` hook `add_header` (server.py lines 20-26) -/

/-- The long-lived cache value. -/
def longCache : String := "public, max-age=31536000"

/-- The `add_header` after-request hook: `Cache-Control` is the
long-lived value exactly when the string `"assets"` occurs in the
response's `Content-Type` header (read with default `''`), and the three
fixed security headers are always set. -/
def add_header (r : Response) : Response :=
  let cc := if strContains (hGetD r "Content-Type" "") "assets" then longCache else "no-cache"
  let h1 := setHeader r.headers "Cache-Control" cc
  let h2 := setHeader h1 "X-Content-Type-Options" "nosniff"
  let h3 := setHeader h2 "X-Frame-Options" "DENY"
  let h4 := setHeader h3 "X-XSS-Protection" "1; mode=block"
  { r with headers := h4 }

/-! ### flask-cors (`CORS(app)` with default options, server.py line 11) -/

/-- flask-cors with default options (`origins='*'`, `send_wildcard=False`,
`always_send=True`, `vary_header=True`): a request carrying an `Origin`
header gets that origin echoed in `Access-Control-Allow-Origin` plus
`Vary: Origin`; a request without one gets the literal wildcard. -/
def corsHeaders (origin : Option String) (r : Response) : Response :=
  match origin with
  | some o =>
    let h1 := setHeader r.headers "Access-Control-Allow-Origin" o
    let h2 := setHeader h1 "Vary" "Origin"
    { r with headers := h2 }
  | none =>
    let h1 := setHeader r.headers "Access-Control-Allow-Origin" "*"
    { r with headers := h1 }

/-- The full response of the application to `GET /p` (with optional
`Origin` request header): route handler, then the `after_request` hooks
in reverse registration order — `add_header` first, flask-cors second. -/
def appResponse (fs : FS) (p : String) (origin : Option String) : Response :=
  corsHeaders origin (add_header (serve fs p))

/-! ### Startup of the static-file server (server.py lines 28-36) -/

/-- An observable step of the `__main__` block of `server.py`. -/
inductive StartupEvent where
  | printMsg (s : String)
  | runBuild
  | startListener (host : String) (port : Nat)
deriving DecidableEq

/-- The `__main__` block of `server.py` as the sequence of its effects:
banner prints, the synchronous `os.system('npm run build')`, more prints,
then `app.run(host='0.0.0.0', port=5000, ...)`.  The argument is the exit
status the build command returns; `os.system`'s return value is not
bound or inspected anywhere in the script (line 31), so the sequence
cannot depend on it. -/
def serverStartup (_buildExit : Int) : List StartupEvent :=
  [StartupEvent.printMsg "🚀 IgniteX Test Server Starting...",
   StartupEvent.printMsg "📦 Building production bundle first...",
   StartupEvent.runBuild,
   StartupEvent.printMsg "✅ Build complete!",
   StartupEvent.printMsg "🌐 Server running at: http://localhost:5000",
   StartupEvent.printMsg "🌐 Network access: http://0.0.0.0:5000",
   StartupEvent.printMsg "Press CTRL+C to stop",
   StartupEvent.startListener "0.0.0.0" 5000]

/-- Index of the build step in the startup sequence. -/
def buildIndex (evs : List StartupEvent) : Nat :=
  evs.findIdx (fun e => decide (e = StartupEvent.runBuild))

/-- Index of the listener start in the startup sequence. -/
def listenIndex (evs : List StartupEvent) : Nat :=
  evs.findIdx (fun e =>
    match e with
    | StartupEvent.startListener _ _ => true
    | _ => false)

/-! ### Process outcomes on stop (Testing.py; server.py under interrupt) -/

/-- Why a component's blocking call returned: an operator interrupt, or
the child command finishing on its own with some exit code. -/
inductive StopCause where
  | interrupt
  | childExit (code : Int)
deriving DecidableEq

/-- What a component's process does once its blocking call is over: the
process exit code and whatever it prints after the stop. -/
structure RunOutcome where
  exitCode : Nat
  messages : List String
deriving DecidableEq

/-- `Testing.py`: `subprocess.run(['npm', 'run', 'dev'])` inside
`try ... except KeyboardInterrupt`.  An interrupt is caught, the shutdown
message is printed and `sys.exit(0)` runs; a natural child exit returns a
`CompletedProcess` whose return code is never read (no `check=True`, no
use of the result), and the script falls off the end with exit status 0. -/
def launcherOutcome : StopCause → RunOutcome
  | StopCause.interrupt => ⟨0, ["\n\n✅ Server stopped"]⟩
  | StopCause.childExit _ => ⟨0, []⟩

/-- `server.py` under an operator interrupt while serving: the script has
no handler of its own; werkzeug's serving loop absorbs the
`KeyboardInterrupt` (`BaseWSGIServer.serve_forever` catches it), so
`app.run` returns, the script falls off the end with exit status 0, and
nothing further is printed — the script contains no shutdown message. -/
def serverInterruptOutcome : RunOutcome :=
  ⟨0, []⟩

/-! ### Concrete filesystems for witnesses and counterexamples -/

/-- A built asset tree as the spec's concrete scenario has it
(`index.html` and `style.css`), extended with a subdirectory `dist/sub`
and a file `secret.txt` next to (not inside) the tree. -/
def demoFS : FS :=
  ⟨[([], Entry.dir),
    (["secret.txt"], Entry.file [83, 69, 67, 82, 69, 84]),
    (["dist"], Entry.dir),
    (["dist", "index.html"], Entry.file [60, 104, 116, 109, 108, 62]),
    (["dist", "style.css"], Entry.file [98, 111, 100, 121]),
    (["dist", "sub"], Entry.dir),
    (["dist", "sub", "note.txt"], Entry.file [110])]⟩

/-- The entry document's bytes in `demoFS`. -/
def demoIndexBytes : List Nat := [60, 104, 116, 109, 108, 62]

/-- The bytes of `dist/style.css` in `demoFS`. -/
def demoCssBytes : List Nat := [98, 111, 100, 121]

/-- The bytes of `secret.txt` (outside the asset tree) in `demoFS`. -/
def demoSecretBytes : List Nat := [83, 69, 67, 82, 69, 84]

/-! ### Header-manipulation lemmas -/

/-- Looking up a key other than the filtered-out one is unaffected by the
filtering `setHeader` performs. -/
theorem hFind_filter_ne (hs : List (String × String)) (k k' : String) (h : k' ≠ k) :
    hFind k' (hs.filter (fun kv => !decide (kv.1 = k))) = hFind k' hs := by
  induction hs with
  | nil => rfl
  | cons a t ih =>
    obtain ⟨ak, av⟩ := a
    by_cases ha : ak = k
    · subst ha
      have hne : ¬ (ak = k') := fun hh => h hh.symm
      simp [hFind, hne, ih]
    · by_cases hk : ak = k'
      · subst hk
        simp [hFind, ha]
      · simp [hFind, ha, hk, ih]

/-- After `setHeader hs k v`, looking up `k` yields `v`. -/
theorem hFind_set_self (hs : List (String × String)) (k v : String) :
    hFind k (setHeader hs k v) = some v := by
  simp [setHeader, hFind]

/-- After `setHeader hs k v`, looking up a different key is unchanged. -/
theorem hFind_set_ne (hs : List (String × String)) (k v k' : String) (h : k' ≠ k) :
    hFind k' (setHeader hs k v) = hFind k' hs := by
  have hne : ¬ (k = k') := fun hh => h hh.symm
  simp [setHeader, hFind, hne, hFind_filter_ne hs k k' h]

/-- `add_header` does not change the status. -/
theorem add_header_status (r : Response) : (add_header r).status = r.status := rfl

/-- `add_header` does not change the body. -/
theorem add_header_body (r : Response) : (add_header r).body = r.body := rfl

/-- The CORS hook does not change the status. -/
theorem corsHeaders_status (o : Option String) (r : Response) :
    (corsHeaders o r).status = r.status := by
  cases o <;> rfl

/-- The CORS hook does not change the body. -/
theorem corsHeaders_body (o : Option String) (r : Response) :
    (corsHeaders o r).body = r.body := by
  cases o <;> rfl

/-- The CORS hook only touches `Access-Control-Allow-Origin` and `Vary`. -/
theorem hGet_corsHeaders_ne (o : Option String) (r : Response) (k : String)
    (h1 : k ≠ "Access-Control-Allow-Origin") (h2 : k ≠ "Vary") :
    hGet (corsHeaders o r) k = hGet r k := by
  cases o with
  | none =>
    simp only [corsHeaders, hGet]
    rw [hFind_set_ne _ _ _ _ h1]
  | some og =>
    simp only [corsHeaders, hGet]
    rw [hFind_set_ne _ _ _ _ h2, hFind_set_ne _ _ _ _ h1]

/-- `add_header` only touches its four fixed keys. -/
theorem hGet_add_header_ne (r : Response) (k : String)
    (h1 : k ≠ "Cache-Control") (h2 : k ≠ "X-Content-Type-Options")
    (h3 : k ≠ "X-Frame-Options") (h4 : k ≠ "X-XSS-Protection") :
    hGet (add_header r) k = hGet r k := by
  simp only [add_header, hGet]
  rw [hFind_set_ne _ _ _ _ h4, hFind_set_ne _ _ _ _ h3,
      hFind_set_ne _ _ _ _ h2, hFind_set_ne _ _ _ _ h1]

/-- The `Cache-Control` value `add_header` installs, as a function of the
incoming response's content type. -/
theorem hGet_add_header_cc (r : Response) :
    hGet (add_header r) "Cache-Control" =
      some (if strContains (hGetD r "Content-Type" "") "assets" then longCache
            else "no-cache") := by
  simp only [add_header, hGet]
  rw [hFind_set_ne _ _ _ _ (by decide), hFind_set_ne _ _ _ _ (by decide),
      hFind_set_ne _ _ _ _ (by decide), hFind_set_self]

/-- `add_header` installs `X-Content-Type-Options: nosniff`. -/
theorem hGet_add_header_xcto (r : Response) :
    hGet (add_header r) "X-Content-Type-Options" = some "nosniff" := by
  simp only [add_header, hGet]
  rw [hFind_set_ne _ _ _ _ (by decide), hFind_set_ne _ _ _ _ (by decide), hFind_set_self]

/-- `add_header` installs `X-Frame-Options: DENY`. -/
theorem hGet_add_header_xfo (r : Response) :
    hGet (add_header r) "X-Frame-Options" = some "DENY" := by
  simp only [add_header, hGet]
  rw [hFind_set_ne _ _ _ _ (by decide), hFind_set_self]

/-- `add_header` installs `X-XSS-Protection: 1; mode=block`. -/
theorem hGet_add_header_xxp (r : Response) :
    hGet (add_header r) "X-XSS-Protection" = some "1; mode=block" := by
  simp only [add_header, hGet]
  rw [hFind_set_self]

/-- When the guard of `serve` holds, the file-serving branch runs. -/
theorem serve_guard_true (fs : FS) (p : String)
    (hne : p ≠ "") (hex : osExists fs (joinSegs p) = true) :
    serve fs p = sendFromDirectory fs p := by
  unfold serve
  rw [if_pos ⟨hne, hex⟩]

/-- When the guard of `serve` fails, the fallback branch runs. -/
theorem serve_guard_false (fs : FS) (p : String)
    (h : p = "" ∨ osExists fs (joinSegs p) = false) :
    serve fs p = sendIndex fs := by
  unfold serve
  rw [if_neg]
  rintro ⟨h1, h2⟩
  rcases h with h | h
  · exact h1 h
  · rw [h] at h2
    cases h2

/-! ### Claim theorems -/

/-- C3: every response's `Cache-Control` equals `public, max-age=31536000`
exactly when the response's `Content-Type` string contains the substring
`"assets"`, and otherwise equals `no-cache`; the second conjunct exhibits
the value as a function of the content-type string alone, over all
filesystems, request paths and origins — the request path enters only
through the content type. -/
theorem cache_control_policy (fs : FS) (p : String) (o : Option String) :
    (hGet (appResponse fs p o) "Cache-Control" = some longCache
      ↔ strContains (hGetD (appResponse fs p o) "Content-Type" "") "assets" = true)
    ∧ hGet (appResponse fs p o) "Cache-Control" =
        some (if strContains (hGetD (appResponse fs p o) "Content-Type" "") "assets" then
                longCache
              else "no-cache") := by
  have hct : hGet (appResponse fs p o) "Content-Type" = hGet (serve fs p) "Content-Type" := by
    unfold appResponse
    rw [hGet_corsHeaders_ne _ _ _ (by decide) (by decide),
        hGet_add_header_ne _ _ (by decide) (by decide) (by decide) (by decide)]
  have hctD : hGetD (appResponse fs p o) "Content-Type" ""
      = hGetD (serve fs p) "Content-Type" "" := by
    unfold hGetD
    rw [hct]
  have hcc : hGet (appResponse fs p o) "Cache-Control" =
      some (if strContains (hGetD (serve fs p) "Content-Type" "") "assets" then longCache
            else "no-cache") := by
    unfold appResponse
    rw [hGet_corsHeaders_ne _ _ _ (by decide) (by decide)]
    have := hGet_add_header_cc (serve fs p)
    rw [this]
  refine ⟨?_, ?_⟩
  · rw [hctD, hcc]
    cases hb : strContains (hGetD (serve fs p) "Content-Type" "") "assets" <;> decide
  · rw [hctD, hcc]

/-- C4: every response, on every path and through every branch of the
handler, carries the four fixed headers: some `Cache-Control` value,
`X-Content-Type-Options: nosniff`, `X-Frame-Options: DENY` and
`X-XSS-Protection: 1; mode=block`. -/
theorem fixed_headers_always (fs : FS) (p : String) (o : Option String) :
    (hGet (appResponse fs p o) "Cache-Control").isSome = true
    ∧ hGet (appResponse fs p o) "X-Content-Type-Options" = some "nosniff"
    ∧ hGet (appResponse fs p o) "X-Frame-Options" = some "DENY"
    ∧ hGet (appResponse fs p o) "X-XSS-Protection" = some "1; mode=block" := by
  unfold appResponse
  refine ⟨?_, ?_, ?_, ?_⟩
  · rw [hGet_corsHeaders_ne _ _ _ (by decide) (by decide), hGet_add_header_cc]
    rfl
  · rw [hGet_corsHeaders_ne _ _ _ (by decide) (by decide), hGet_add_header_xcto]
  · rw [hGet_corsHeaders_ne _ _ _ (by decide) (by decide), hGet_add_header_xfo]
  · rw [hGet_corsHeaders_ne _ _ _ (by decide) (by decide), hGet_add_header_xxp]

/-- C1's counterexample: for the request path `../secret.txt` on `demoFS`,
the path is non-empty and `os.path.join('dist', p)` exists on disk — it
is the regular file `secret.txt` with bytes `demoSecretBytes` — yet the
response is a 404 error page, not that file's bytes: `send_from_directory`
rejects the parent-directory segment that the guard accepted. -/
theorem file_request_counterexample :
    ("../secret.txt" ≠ "" ∧ osExists demoFS (joinSegs "../secret.txt") = true)
    ∧ osStat demoFS (joinSegs "../secret.txt") = some (Entry.file demoSecretBytes)
    ∧ (appResponse demoFS "../secret.txt" none).status = 404
    ∧ (appResponse demoFS "../secret.txt" none).body ≠ Body.bytes demoSecretBytes := by
  decide

/-- C1 as amended: when a non-empty, non-absolute request path whose
lexical normalization is non-empty and does not escape upward both passes
the existence guard and names a regular file under the tree, the response
is that file's exact bytes with status 200 and the content type inferred
from its extension.  (The non-empty-normalization hypothesis excludes
paths like `"."` that normalize to the tree root itself, where the real
trailing-dot target is never a regular file.) -/
theorem file_request_ok (fs : FS) (p : String) (b : List Nat) (o : Option String)
    (habs : strStartsWith p "/" = false)
    (hne : p ≠ "")
    (hesc : escapes p = false)
    (_hnorm : normSegs (rawSegs p) ≠ [])
    (hex : osExists fs (joinSegs p) = true)
    (hfile : osStat fs (sfdTarget p) = some (Entry.file b)) :
    (appResponse fs p o).status = 200
    ∧ (appResponse fs p o).body = Body.bytes b
    ∧ hGet (appResponse fs p o) "Content-Type"
        = some (guessMime (lastSeg (sfdTarget p))) := by
  have hsafe : safeJoinOk p = true := by
    unfold safeJoinOk
    rw [habs, hesc]
    rfl
  have hsfd : sendFromDirectory fs p =
      ⟨200, Body.bytes b, [("Content-Type", guessMime (lastSeg (sfdTarget p)))]⟩ := by
    unfold sendFromDirectory
    rw [hsafe, hfile]
    rfl
  have hserve : serve fs p =
      ⟨200, Body.bytes b, [("Content-Type", guessMime (lastSeg (sfdTarget p)))]⟩ := by
    rw [serve_guard_true fs p hne hex, hsfd]
  refine ⟨?_, ?_, ?_⟩
  · unfold appResponse
    rw [corsHeaders_status, add_header_status, hserve]
  · unfold appResponse
    rw [corsHeaders_body, add_header_body, hserve]
  · unfold appResponse
    rw [hGet_corsHeaders_ne _ _ _ (by decide) (by decide),
        hGet_add_header_ne _ _ (by decide) (by decide) (by decide) (by decide), hserve]
    rfl

/-- C1 witness: `GET /style.css` on `demoFS` is answered with the CSS
file's bytes and its inferred content type. -/
theorem file_request_ok_witness :
    (appResponse demoFS "style.css" none).status = 200
    ∧ (appResponse demoFS "style.css" none).body = Body.bytes demoCssBytes
    ∧ hGet (appResponse demoFS "style.css" none) "Content-Type"
        = some (guessMime (lastSeg (sfdTarget "style.css"))) :=
  file_request_ok demoFS "style.css" demoCssBytes none (by decide) (by decide) (by decide)
    (by decide) (by decide) (by decide)

/-- C2's counterexample: the request path `sub` does not correspond to a
file under the asset tree — it names the directory `dist/sub` — yet the
response is a 404 error page, not the entry document with status 200: the
guard accepts the existing directory and `send_from_directory` then
rejects it. -/
theorem spa_fallback_counterexample :
    osStat demoFS (sfdTarget "sub") = some Entry.dir
    ∧ (appResponse demoFS "sub" none).status = 404
    ∧ (appResponse demoFS "sub" none).body ≠ Body.bytes demoIndexBytes := by
  decide

/-- C2 as amended: for every request path that fails the handler's guard
(the empty path, or a joined path that does not exist on disk), the
response is the entry document's exact bytes with status 200 and no
`Location` header (not a redirect), provided the entry document exists as
a regular file. -/
theorem spa_fallback_ok (fs : FS) (p : String) (ib : List Nat) (o : Option String)
    (hidx : osStat fs ["dist", "index.html"] = some (Entry.file ib))
    (hmiss : p = "" ∨ osExists fs (joinSegs p) = false) :
    (appResponse fs p o).status = 200
    ∧ (appResponse fs p o).body = Body.bytes ib
    ∧ hGet (appResponse fs p o) "Location" = none := by
  have hsi : sendIndex fs =
      ⟨200, Body.bytes ib, [("Content-Type", "text/html; charset=utf-8")]⟩ := by
    unfold sendIndex
    rw [hidx]
  have hserve : serve fs p =
      ⟨200, Body.bytes ib, [("Content-Type", "text/html; charset=utf-8")]⟩ := by
    rw [serve_guard_false fs p hmiss, hsi]
  refine ⟨?_, ?_, ?_⟩
  · unfold appResponse
    rw [corsHeaders_status, add_header_status, hserve]
  · unfold appResponse
    rw [corsHeaders_body, add_header_body, hserve]
  · unfold appResponse
    rw [hGet_corsHeaders_ne _ _ _ (by decide) (by decide),
        hGet_add_header_ne _ _ (by decide) (by decide) (by decide) (by decide), hserve]
    rfl

/-- C2 witness: `GET /nonexistent/route` on `demoFS` is answered with the
entry document's bytes and status 200. -/
theorem spa_fallback_ok_witness :
    (appResponse demoFS "nonexistent/route" none).status = 200
    ∧ (appResponse demoFS "nonexistent/route" none).body = Body.bytes demoIndexBytes
    ∧ hGet (appResponse demoFS "nonexistent/route" none) "Location" = none :=
  spa_fallback_ok demoFS "nonexistent/route" demoIndexBytes none (by decide) (by decide)

/-- C5: the guard `path and os.path.exists(os.path.join(...))` performs
no canonicalization: the concrete request path `../secret.txt` contains a
parent-directory segment, resolves to the existing regular file
`secret.txt` outside the asset tree root `dist`, and still satisfies the
guard. -/
theorem traversal_guard_admits_escape :
    ("../secret.txt" ≠ "" ∧ osExists demoFS (joinSegs "../secret.txt") = true)
    ∧ (".." ∈ rawSegs "../secret.txt")
    ∧ walkFrom demoFS [] (joinSegs "../secret.txt") = some ["secret.txt"]
    ∧ ¬ (["dist"] <+: ["secret.txt"])
    ∧ demoFS.stat ["secret.txt"] = some (Entry.file demoSecretBytes) := by
  decide

/-- C6: the startup sequence of the static-file server is the same for
every exit status of the build command (the status is never inspected),
it contains both the synchronous build step and the listener start, and
the build step comes strictly before the listener start. -/
theorem build_before_listen (c c' : Int) :
    serverStartup c = serverStartup c'
    ∧ StartupEvent.runBuild ∈ serverStartup c
    ∧ StartupEvent.startListener "0.0.0.0" 5000 ∈ serverStartup c
    ∧ buildIndex (serverStartup c) < listenIndex (serverStartup c) := by
  have hconst : serverStartup c = serverStartup 0 := rfl
  refine ⟨rfl, ?_, ?_, ?_⟩ <;> rw [hconst] <;> decide

/-- C7's counterexample: at the concrete input — the static-file server
component under an operator interrupt — the process exits with status 0
but prints nothing: `server.py` contains no shutdown message, so the
claim that each component "prints its shutdown message" fails. -/
theorem interrupt_shutdown_counterexample :
    serverInterruptOutcome.exitCode = 0 ∧ serverInterruptOutcome.messages = [] := by
  decide

/-- C7 as amended: an operator interrupt makes both components exit with
status 0; the dev-launcher prints its shutdown message, while the
static-file server prints no shutdown message. -/
theorem interrupt_shutdown_behavior :
    launcherOutcome StopCause.interrupt = ⟨0, ["\n\n✅ Server stopped"]⟩
    ∧ serverInterruptOutcome = ⟨0, []⟩ := by
  decide

/-- C8: the dev-launcher exits with status 0 whenever its child exits
naturally, identically for every child exit code (the code is never
inspected or propagated), and also exits 0 on operator interrupt. -/
theorem launcher_ignores_child_exit (c c' : Int) :
    (launcherOutcome (StopCause.childExit c)).exitCode = 0
    ∧ launcherOutcome (StopCause.childExit c) = launcherOutcome (StopCause.childExit c')
    ∧ (launcherOutcome StopCause.interrupt).exitCode = 0 :=
  ⟨rfl, rfl, rfl⟩

/-- C9: a non-empty request path that passes the handler's existence
guard but escapes upward via a parent-directory segment or whose resolved
target is a directory is answered by `send_from_directory` with a 404
error page: neither the target's bytes nor the entry-document fallback
(the body is the framework's error page, not file bytes). -/
theorem guarded_miss_404 (fs : FS) (p : String) (o : Option String)
    (habs : strStartsWith p "/" = false)
    (hne : p ≠ "")
    (hex : osExists fs (joinSegs p) = true)
    (hbad : escapes p = true ∨ osStat fs (sfdTarget p) = some Entry.dir) :
    (appResponse fs p o).status = 404
    ∧ (appResponse fs p o).body = Body.errorPage := by
  have hsfd : sendFromDirectory fs p = notFound := by
    unfold sendFromDirectory
    by_cases hs : safeJoinOk p = true
    · rw [hs]
      rcases hbad with hbad | hbad
      · exfalso
        unfold safeJoinOk at hs
        rw [hbad, habs] at hs
        cases hs
      · rw [hbad]
        rfl
    · rw [if_neg hs]
  have hserve : serve fs p = notFound := by
    rw [serve_guard_true fs p hne hex, hsfd]
  refine ⟨?_, ?_⟩
  · unfold appResponse
    rw [corsHeaders_status, add_header_status, hserve]
    rfl
  · unfold appResponse
    rw [corsHeaders_body, add_header_body, hserve]
    rfl

/-- C9 witness: `GET /sub` on `demoFS` (an existing directory under the
tree) passes the guard and is answered 404 with an error-page body. -/
theorem guarded_miss_404_witness :
    (appResponse demoFS "sub" none).status = 404
    ∧ (appResponse demoFS "sub" none).body = Body.errorPage :=
  guarded_miss_404 demoFS "sub" none (by decide) (by decide) (by decide)
    (Or.inr (by decide))

/-- C10's counterexample: with flask-cors's default configuration
(`send_wildcard=False`), a request carrying the `Origin` header
`http://example.test` is answered with that origin echoed in
`Access-Control-Allow-Origin`, not the literal wildcard `*` the claim
names. -/
theorem cors_wildcard_counterexample :
    hGet (appResponse demoFS "style.css" (some "http://example.test"))
        "Access-Control-Allow-Origin" = some "http://example.test"
    ∧ ¬ hGet (appResponse demoFS "style.css" (some "http://example.test"))
        "Access-Control-Allow-Origin" = some "*" := by
  decide

/-- C10 as amended: CORS is enabled application-wide — every request
carrying an `Origin` header receives an `Access-Control-Allow-Origin`
header echoing that origin (so any origin whatsoever is permitted), and a
request without one receives the literal wildcard. -/
theorem cors_allow_origin (fs : FS) (p : String) (og : String) :
    hGet (appResponse fs p (some og)) "Access-Control-Allow-Origin" = some og
    ∧ hGet (appResponse fs p none) "Access-Control-Allow-Origin" = some "*" := by
  constructor
  · unfold appResponse corsHeaders
    simp only [hGet]
    rw [hFind_set_ne _ _ _ _ (by decide), hFind_set_self]
  · unfold appResponse corsHeaders
    simp only [hGet]
    rw [hFind_set_self]

end QuantumX
